import Mathlib

/-!
Shallow embedding of the AUTO_Call survey system
(`src/app/routers/twilio.py`, `src/app/models.py`) and proofs about its
call-flow handlers and transcription pipeline.

Machine conventions:
* Database rows are Lean structures mirroring the SQLAlchemy models; the
  database is a structure of lists (rows in insertion order, matching the
  default scan order of the queries in the source).
* Nullable columns are `Option`; Python string truthiness (`if s:` treating
  both `None` and `""` as false) is modelled by `truthyStr`.
* Timestamps are not modelled: no claim mentions them.
* TwiML output is a list of `Verb`s; `pause` lengths are stored in tenths of
  a second (the source uses 1.5 and 1).
* An unhandled Python exception escaping a handler (which FastAPI turns into
  a non-TwiML HTTP 500) is modelled by the handler returning `none` for its
  markup.
-/

/-- Truthiness of an optional string, as Python `if s:`:
`None` and the empty string are falsy. -/
def truthyStr : Option String → Bool
  | none => false
  | some s => s ≠ ""

/-- `models.Scenario` (timestamps omitted). -/
structure Scenario where
  id : Nat
  name : String
  greeting_text : Option String
  disclaimer_text : Option String
  question_guidance_text : Option String
  is_active : Bool
deriving Repr, DecidableEq

/-- `models.EndingGuidance`. -/
structure EndingGuidance where
  id : Nat
  scenario_id : Option Nat
  text : String
  sort_order : Int
deriving Repr, DecidableEq

/-- `models.PhoneNumber`. -/
structure PhoneNumber where
  to_number : String
  scenario_id : Option Nat
  label : Option String
  is_active : Bool
deriving Repr, DecidableEq

/-- `models.Question`. -/
structure Question where
  id : Nat
  scenario_id : Option Nat
  text : String
  sort_order : Int
  is_active : Bool
deriving Repr, DecidableEq

/-- `models.Call`. -/
structure Call where
  call_sid : String
  from_number : String
  to_number : String
  scenario_id : Option Nat
  status : String
  recording_sid : Option String
deriving Repr, DecidableEq

/-- `models.Message`. -/
structure Message where
  id : Nat
  call_sid : String
  recording_sid : Option String
  recording_url : Option String
  transcript_text : Option String
deriving Repr, DecidableEq

/-- `models.Answer`. -/
structure Answer where
  id : Nat
  call_sid : String
  question_id : Option Nat
  answer_type : String
  recording_sid : Option String
  recording_url_twilio : Option String
  storage_url : Option String
  storage_status : String
  transcript_text : Option String
  transcript_status : String
  question_sort_at_call : Int
deriving Repr, DecidableEq

/-- `models.TranscriptionLog` (row id and timestamp omitted; rows are only
ever appended, never addressed individually). -/
structure TranscriptionLog where
  answer_id : Option Nat
  service : String
  status : String
  audio_bytes : Option Nat
  audio_duration : Option Nat
  model_name : Option String
  language : String
  request_payload : Option String
  response_payload : Option String
  processing_time : Nat
deriving Repr, DecidableEq

/-- The database: one list of rows per table, in insertion order. -/
structure DB where
  scenarios : List Scenario
  phoneNumbers : List PhoneNumber
  questions : List Question
  endingGuidances : List EndingGuidance
  calls : List Call
  answers : List Answer
  messages : List Message
  transcriptionLogs : List TranscriptionLog
deriving Repr, DecidableEq

/-- `normalize_phone` from `handle_incoming_call`: strip spaces, hyphens and
parentheses, then ensure a leading `+`.  Replacing each single-character
pattern with the empty string is exactly filtering that character out of the
character sequence, and `startswith("+")` is a first-character test; both
are stated here on `String.data` so that they compute. -/
def normalize_phone (number : String) : String :=
  let stripped := String.mk (number.data.filter
    (fun c => !(c == ' ' || c == '-' || c == '(' || c == ')')))
  if stripped.data.head? == some '+' then stripped else "+" ++ stripped

/-- Python string slicing `s[:n]` (by characters). -/
def strTake (s : String) (n : Nat) : String := String.mk (s.data.take n)

/-- Scenario lookup by primary key (`phone_entry.scenario` relationship /
`db.query(Scenario).get`). -/
def findScenario (db : DB) (sid : Nat) : Option Scenario :=
  db.scenarios.find? (fun s => s.id == sid)

/-- The phone lookup of `handle_incoming_call` lines 222-229: exact match on
`to_number` first, otherwise a scan comparing normalized forms. -/
def resolvePhone (db : DB) (To : String) : Option PhoneNumber :=
  match db.phoneNumbers.find? (fun pn => pn.to_number == To) with
  | some pn => some pn
  | none =>
      db.phoneNumbers.find?
        (fun pn => normalize_phone pn.to_number == normalize_phone To)

/-- TwiML verbs emitted by `handle_incoming_call` and `handle_recording`.
`pause` lengths are in tenths of a second. (The gather/redirect/hangup verbs
appear only in the message-confirmation handlers, which no claim touches.) -/
inductive Verb where
  | say (text : String)
  | pause (lengthTenths : Nat)
  | record (action : String) (finishOnKey : String) (timeout : Nat)
      (maxLength : Nat)
deriving Repr, DecidableEq

/-- The action URL encoded into a question recording instruction. -/
def recordCallbackUrl (scenario_id q_id : Nat) : String :=
  "/twilio/record_callback?scenario_id=" ++ toString scenario_id ++
    "&q_curr=" ++ toString q_id

/-- The action URL of the free-form message recording instruction. -/
def messageRecordUrl (scenario_id : Nat) : String :=
  "/twilio/message_record?scenario_id=" ++ toString scenario_id

/-- `if scenario.xxx_text:` followed by `vr.say(...)`. -/
def sayIfTruthy (s : Option String) : List Verb :=
  match s with
  | some t => if t ≠ "" then [Verb.say t] else []
  | none => []

/-- Python `a or default` on an optional string. -/
def orDefault (s : Option String) (d : String) : String :=
  match s with
  | some t => if t ≠ "" then t else d
  | none => d

/-- `ORDER BY sort_order LIMIT 1` on a list of question rows: the earliest
row (in table-scan order) whose `sort_order` is minimal. -/
def firstBySort : List Question → Option Question
  | [] => none
  | q :: qs =>
      match firstBySort qs with
      | none => some q
      | some m => if q.sort_order ≤ m.sort_order then some q else some m

/-- Stable insertion into a list of ending guidances sorted by
`sort_order`. -/
def insertEG (eg : EndingGuidance) : List EndingGuidance → List EndingGuidance
  | [] => [eg]
  | x :: xs =>
      if x.sort_order ≤ eg.sort_order then x :: insertEG eg xs
      else eg :: x :: xs

/-- `ORDER BY sort_order` on the ending guidances (stable sort). -/
def sortEGs : List EndingGuidance → List EndingGuidance
  | [] => []
  | x :: xs => insertEG x (sortEGs xs)

/-- `handle_incoming_call` (the `/twilio/voice` endpoint).
`recSid` is the outcome of the whole-call-recording attempt against the
telephony platform: `some sid` on success, `none` when credentials are
missing or the attempt failed (the exception is swallowed in the source).
The second component is the response: `some verbs` for a TwiML document,
`none` when an unhandled exception escapes (the access
`phone_entry.scenario.is_active` with an unresolvable scenario reference),
which FastAPI renders as a non-TwiML HTTP 500. -/
def handle_incoming_call (db : DB) (To From CallSid : String)
    (recSid : Option String) : DB × Option (List Verb) :=
  let phone_entry := resolvePhone db To
  let call : Call :=
    { call_sid := CallSid
      from_number := From
      to_number := To
      scenario_id :=
        match phone_entry with
        | some pn => pn.scenario_id
        | none => none
      status := "in-progress"
      recording_sid := recSid }
  let db1 : DB := { db with calls := db.calls ++ [call] }
  match phone_entry with
  | none => (db1, some [Verb.say "現在この番号は使われておりません。"])
  | some pn =>
      match pn.scenario_id.bind (fun sid => findScenario db1 sid) with
      | none => (db1, none)
      | some scenario =>
          if !scenario.is_active then
            (db1, some [Verb.say "現在この番号は使われておりません。"])
          else
            let intro :=
              sayIfTruthy scenario.greeting_text ++
              sayIfTruthy scenario.disclaimer_text ++
              [Verb.say (orDefault scenario.question_guidance_text
                 "このあと何点か質問をさせていただきます。回答が済みましたらシャープを押して次に進んでください"),
               Verb.pause 15]
            let first_question :=
              firstBySort (db1.questions.filter
                (fun q => q.scenario_id == some scenario.id && q.is_active))
            match first_question with
            | some q =>
                (db1, some (intro ++
                  [Verb.say q.text,
                   Verb.record (recordCallbackUrl scenario.id q.id) "#" 0 180]))
            | none =>
                let egs := sortEGs (db1.endingGuidances.filter
                  (fun eg => eg.scenario_id == some scenario.id))
                if egs.isEmpty then
                  (db1, some (intro ++ [Verb.say "終了します。"]))
                else
                  (db1, some (intro ++
                    (egs.map (fun eg => [Verb.say eg.text, Verb.pause 10])).flatten))

/-- A scheduled transcription background job: the identifiers handed to
`asyncio.create_task(transcribe_with_whisper(answer.id, RecordingUrl,
RecordingSid))`. -/
structure TranscriptionJob where
  answer_id : Nat
  recording_url : String
  recording_sid : String
deriving Repr, DecidableEq

/-- Autoincrement primary key for a fresh answer row. -/
def nextAnswerId (db : DB) : Nat :=
  (db.answers.foldl (fun m a => max m a.id) 0) + 1

/-- `handle_recording` (the `/twilio/record_callback` endpoint): persists the
Answer, schedules a transcription job, and emits either the next question's
markup, the message prompt, or the generic error markup when `q_curr` does
not resolve. -/
def handle_recording (db : DB) (scenario_id q_curr : Nat)
    (CallSid RecordingUrl RecordingSid : String) :
    DB × List Verb × TranscriptionJob :=
  let current_q := db.questions.find? (fun q => q.id == q_curr)
  let aid := nextAnswerId db
  let answer : Answer :=
    { id := aid
      call_sid := CallSid
      question_id := some q_curr
      answer_type := "recording"
      recording_sid := some RecordingSid
      recording_url_twilio := some RecordingUrl
      storage_url := none
      storage_status := "pending"
      transcript_text := none
      transcript_status := "processing"
      question_sort_at_call :=
        match current_q with
        | some q => q.sort_order
        | none => 0 }
  let db1 : DB := { db with answers := db.answers ++ [answer] }
  let job : TranscriptionJob :=
    { answer_id := aid, recording_url := RecordingUrl
      recording_sid := RecordingSid }
  match current_q with
  | none => (db1, [Verb.say "エラーが発生しました。"], job)
  | some cq =>
      let next_question :=
        firstBySort (db1.questions.filter (fun q =>
          q.scenario_id == some scenario_id && q.is_active &&
            cq.sort_order < q.sort_order))
      match next_question with
      | some nq =>
          (db1,
           [Verb.say nq.text,
            Verb.record (recordCallbackUrl scenario_id nq.id) "#" 0 180],
           job)
      | none =>
          (db1,
           [Verb.say "担当者に伝えたいことがあればお話しください。終わったらシャープを押してください。",
            Verb.record (messageRecordUrl scenario_id) "#" 10 180],
           job)

/-- Outcome of one `requests.get` download attempt: either a response with
this HTTP status code, or the call raising an exception with this message
(connection error, timeout, ...). -/
inductive DownloadOutcome where
  | status (code : Nat)
  | raise (msg : String)
deriving Repr, DecidableEq

/-- How the download retry loop of `transcribe_with_whisper` ends: `ok`
(broke out of the loop on HTTP 200), `exhausted` (five non-success
responses, so the `else: return` branch of the last attempt ran), or
`raised e` (a download attempt raised, jumping straight to the function
body's `except` handler). -/
inductive DownloadResult where
  | ok
  | exhausted
  | raised (msg : String)
deriving Repr, DecidableEq

/-- Whether the retry loop ended in the `else: return` branch (the only
download ending that reaches neither the transcription stage nor the
`except` handler). -/
def isExhausted : DownloadResult → Bool
  | .exhausted => true
  | _ => false

/-- Environment of one transcription job run: everything the background task
reads from the outside world. `attempt i` is the outcome of download attempt
`i` (an HTTP status, or `requests.get` raising); `transcription` is the
outcome of the stage between a successful download and the success commit —
transcript text and audio duration when it completes, the exception message
when any step of it (file handling, the Whisper call, the write-back)
raises. -/
structure TransEnv where
  apiKeyConfigured : Bool
  attempt : Nat → DownloadOutcome
  audioBytes : Nat
  processingTime : Nat
  transcription : Except String (String × Nat)

/-- The download retry loop of `transcribe_with_whisper` lines 33-49:
`fuel` is the number of attempts left (`max_retries - attempt`), `delay` the
current `retry_delay`. Returns (how the loop ended, attempts made, sleeps
performed). On a non-200 status the loop sleeps and doubles the delay unless
it was the last attempt, in which case the function returns (`exhausted`); a
raising attempt leaves the loop for the `except` handler at once
(`raised`). -/
def downloadLoop (att : Nat → DownloadOutcome) :
    Nat → Nat → Nat → DownloadResult × Nat × List Nat
  | 0, _, _ => (.exhausted, 0, [])
  | fuel + 1, attempt, delay =>
      match att attempt with
      | .raise e => (.raised e, 1, [])
      | .status code =>
          if code == 200 then (.ok, 1, [])
          else if fuel == 0 then (.exhausted, 1, [])
          else
            let r := downloadLoop att fuel (attempt + 1) (delay * 2)
            (r.1, r.2.1 + 1, delay :: r.2.2)

/-- The answer download loop instantiated as in the source:
`max_retries = 5`, `retry_delay = 2`. -/
def downloadRecording (att : Nat → DownloadOutcome) :
    DownloadResult × Nat × List Nat :=
  downloadLoop att 5 0 2

/-- The write-back guard of lines 78-81 and 118-121: the row with this
primary key whose stored `recording_sid` still equals the one the job was
launched with. -/
def answerGuard (job : TranscriptionJob) (a : Answer) : Bool :=
  a.id == job.answer_id && a.recording_sid == some job.recording_sid

/-- `query(...).filter(...).first()` followed by mutating that one row. -/
def updateFirst {α : Type} (p : α → Bool) (f : α → α) : List α → List α
  | [] => []
  | a :: as => if p a then f a :: as else a :: updateFirst p f as

/-- The success `TranscriptionLog` of lines 88-99. -/
def successLog (env : TransEnv) (job : TranscriptionJob) (text : String)
    (dur : Nat) : TranscriptionLog :=
  { answer_id := some job.answer_id
    service := "openai_whisper"
    status := "success"
    audio_bytes := some env.audioBytes
    audio_duration := some dur
    model_name := some "whisper-1"
    language := "ja"
    request_payload := some ("file=" ++ job.recording_sid ++ ".mp3")
    response_payload := some (strTake text 1000)
    processing_time := env.processingTime }

/-- The failure `TranscriptionLog` of lines 127-136. `bytes` models
`audio_bytes if audio_bytes in locals() else 0`: 0 when the exception
pre-dated a successful download, the downloaded byte count otherwise. -/
def failureLog (job : TranscriptionJob) (e : String) (bytes : Nat) :
    TranscriptionLog :=
  { answer_id := some job.answer_id
    service := "openai_whisper"
    status := "failed"
    audio_bytes := some bytes
    audio_duration := none
    model_name := some "whisper-1"
    language := "ja"
    request_payload := some ("file=" ++ job.recording_sid ++ ".mp3")
    response_payload := some e
    processing_time := 0 }

/-- The database work of the `except` handler, lines 116-140: re-query with
the write-back guard; when a row still matches, set its transcript status to
`failed` and append one failure `TranscriptionLog`; otherwise (`if answer:`
false) touch nothing. -/
def failWriteBack (job : TranscriptionJob) (e : String) (bytes : Nat)
    (db : DB) : DB :=
  match db.answers.find? (answerGuard job) with
  | some _ =>
      { db with
        answers := updateFirst (answerGuard job)
          (fun a => { a with transcript_status := "failed" }) db.answers
        transcriptionLogs :=
          db.transcriptionLogs ++ [failureLog job e bytes] }
  | none => db

/-- `transcribe_with_whisper` as a database transformer.  A missing API key
and exhausted download retries `return` without touching the database; a
download attempt raising runs the `except` handler (`failWriteBack`, with
`audio_bytes` unbound, hence 0); a completed transcription updates the
guarded row to `completed` and appends a success log; an exception between a
successful download and the success commit runs the `except` handler with
`audio_bytes` bound. In every handler path a guard miss (`else` of
`if answer:`) leaves the database untouched. (An exception after the success
commit — `os.remove` of the existing temp file failing — is not modelled.) -/
def transcribe_with_whisper (env : TransEnv) (job : TranscriptionJob)
    (db : DB) : DB :=
  if !env.apiKeyConfigured then db
  else
    match (downloadRecording env.attempt).1 with
    | .exhausted => db
    | .raised e => failWriteBack job e 0 db
    | .ok =>
        match env.transcription with
        | .ok (text, dur) =>
            match db.answers.find? (answerGuard job) with
            | some _ =>
                { db with
                  answers := updateFirst (answerGuard job)
                    (fun a => { a with
                      transcript_text := some text
                      transcript_status := "completed" }) db.answers
                  transcriptionLogs :=
                    db.transcriptionLogs ++ [successLog env job text dur] }
            | none => db
        | .error e => failWriteBack job e env.audioBytes db

/-- The download retry loop of `transcribe_message_with_whisper` lines
157-165: unlike the answer loop it sleeps even after the last failed attempt
and checks the final status only after the loop; a raising attempt jumps to
that function's `except` handler. Returns (how the loop ended, sleeps
performed). -/
def msgDownloadLoop (att : Nat → DownloadOutcome) :
    Nat → Nat → Nat → DownloadResult × List Nat
  | 0, _, _ => (.exhausted, [])
  | fuel + 1, attempt, delay =>
      match att attempt with
      | .raise e => (.raised e, [])
      | .status code =>
          if code == 200 then (.ok, [])
          else
            let r := msgDownloadLoop att fuel (attempt + 1) (delay * 2)
            (r.1, delay :: r.2)

/-- `transcribe_message_with_whisper` as a database transformer: on success
it sets the message's transcript text (no recording-sid guard and no
`TranscriptionLog`); every failure path — retry exhaustion, a raising
download attempt (its `except` handler only prints and cleans up), or a
transcription exception — just returns. -/
def transcribe_message_with_whisper (env : TransEnv) (message_id : Nat)
    (db : DB) : DB :=
  if !env.apiKeyConfigured then db
  else
    match (msgDownloadLoop env.attempt 5 0 2).1 with
    | .ok =>
        match env.transcription with
        | .ok (text, _) =>
            match db.messages.find? (fun m => m.id == message_id) with
            | some _ =>
                { db with
                  messages := updateFirst (fun m => m.id == message_id)
                    (fun m => { m with transcript_text := some text })
                    db.messages }
            | none => db
        | .error _ => db
    | .exhausted => db
    | .raised _ => db

/-- The sequence of sleeps produced by doubling an initial delay `n` times
(proof device used to characterise the retry loop's sleeps). -/
def geomSleeps (delay : Nat) : Nat → List Nat
  | 0 => []
  | n + 1 => delay :: geomSleeps (delay * 2) n

/-- All fields of an answer row other than `transcript_text` and
`transcript_status` agree. -/
def sameFrame (a b : Answer) : Prop :=
  a.id = b.id ∧ a.call_sid = b.call_sid ∧ a.question_id = b.question_id ∧
  a.answer_type = b.answer_type ∧ a.recording_sid = b.recording_sid ∧
  a.recording_url_twilio = b.recording_url_twilio ∧
  a.storage_url = b.storage_url ∧ a.storage_status = b.storage_status ∧
  a.question_sort_at_call = b.question_sort_at_call

instance (a b : Answer) : Decidable (sameFrame a b) := by
  unfold sameFrame; infer_instance

/-- The empty database. -/
def emptyDB : DB :=
  { scenarios := [], phoneNumbers := [], questions := [],
    endingGuidances := [], calls := [], answers := [], messages := [],
    transcriptionLogs := [] }

/-! ## Concrete rows used by witnesses and counterexamples -/

/-- An answer row in `processing` state for recording `RE1`. -/
def answerRE1 : Answer :=
  { id := 1, call_sid := "CA1", question_id := some 1
    answer_type := "recording", recording_sid := some "RE1"
    recording_url_twilio := some "https://example.invalid/rec1"
    storage_url := none, storage_status := "pending"
    transcript_text := none, transcript_status := "processing"
    question_sort_at_call := 1 }

/-- An environment whose every download attempt returns HTTP 404. -/
def envAll404 : TransEnv :=
  { apiKeyConfigured := true, attempt := fun _ => .status 404
    audioBytes := 0, processingTime := 0
    transcription := .ok ("hello", 3) }

/-- An environment whose first download attempt succeeds and whose
transcription succeeds. -/
def envOk : TransEnv :=
  { apiKeyConfigured := true, attempt := fun _ => .status 200
    audioBytes := 1024, processingTime := 1
    transcription := .ok ("hello", 3) }

/-- An environment whose third download attempt raises (connection error)
after two 404 responses, and whose transcription would have succeeded. -/
def envRaiseAttempt : TransEnv :=
  { apiKeyConfigured := true
    attempt := fun i =>
      if i == 2 then .raise "ConnectionError" else .status 404
    audioBytes := 0, processingTime := 0
    transcription := .ok ("hello", 3) }

/-- A transcription job launched for answer 1 with recording `RE1`. -/
def jobRE1 : TranscriptionJob :=
  { answer_id := 1, recording_url := "https://example.invalid/rec1"
    recording_sid := "RE1" }

/-- A transcription job launched for answer 1 with a recording id that no
longer matches the stored row. -/
def jobStale : TranscriptionJob :=
  { answer_id := 1, recording_url := "https://example.invalid/rec0"
    recording_sid := "RE0" }

/-- A database holding just the one `processing` answer row. -/
def dbOneAnswer : DB := { emptyDB with answers := [answerRE1] }

/-- A database holding one message row awaiting transcription. -/
def dbOneMessage : DB :=
  { emptyDB with messages :=
      [{ id := 1, call_sid := "CA1", recording_sid := some "RE1"
         recording_url := some "https://example.invalid/rec1"
         transcript_text := some "(文字起こし中...)" }] }

/-- An active scenario row. -/
def scenario1 : Scenario :=
  { id := 1, name := "調査", greeting_text := some "こんにちは"
    disclaimer_text := none, question_guidance_text := none
    is_active := true }

/-- Active question 1 of scenario 1 (sort position 1). -/
def q1 : Question :=
  { id := 1, scenario_id := some 1, text := "質問1", sort_order := 1
    is_active := true }

/-- Active question 2 of scenario 1 (sort position 2). -/
def q2 : Question :=
  { id := 2, scenario_id := some 1, text := "質問2", sort_order := 2
    is_active := true }

/-- A database with scenario 1 and its two active questions. -/
def dbTwoQuestions : DB :=
  { emptyDB with scenarios := [scenario1], questions := [q1, q2] }

/-- Two stored phone numbers that differ only by a space but reference
different scenarios. -/
def dbTwoSimilarPhones : DB :=
  { emptyDB with phoneNumbers :=
      [{ to_number := "+813", scenario_id := some 1, label := none
         is_active := true },
       { to_number := "+81 3", scenario_id := some 2, label := none
         is_active := true }] }

/-- A stored phone number containing spaces. -/
def phoneSpaced : PhoneNumber :=
  { to_number := "+81 3 1234", scenario_id := some 1, label := none
    is_active := true }

/-- A database with the one spaced phone number and its scenario. -/
def dbOnePhone : DB :=
  { emptyDB with scenarios := [scenario1], phoneNumbers := [phoneSpaced] }

/-- A stored phone number (plain form) bound to scenario 1 but itself
marked inactive. -/
def phoneInactive : PhoneNumber :=
  { to_number := "+815011112222", scenario_id := some 1, label := none
    is_active := false }

/-- An inactive question of scenario 1. -/
def qInactive : Question :=
  { id := 3, scenario_id := some 1, text := "旧質問", sort_order := 1
    is_active := false }

/-- An ending guidance of scenario 1. -/
def egClosing : EndingGuidance :=
  { id := 1, scenario_id := some 1
    text := "ご協力ありがとうございました。", sort_order := 0 }

/-- A database whose scenario 1 is active but has zero active questions;
the (inactive) phone row resolves to it. -/
def dbNoActiveQuestions : DB :=
  { emptyDB with
    scenarios := [scenario1], phoneNumbers := [phoneInactive],
    questions := [qInactive], endingGuidances := [egClosing] }

/-- A phone-number table entry whose scenario reference does not resolve
(scenario 1 does not exist). -/
def dbDangling : DB :=
  { emptyDB with phoneNumbers :=
      [{ to_number := "+815000000000", scenario_id := some 1, label := none
         is_active := true }] }

/-! ## Helper lemmas about the query and loop primitives -/

theorem firstBySort_mem {l : List Question} {m : Question}
    (h : firstBySort l = some m) : m ∈ l := by
  induction l with
  | nil => simp [firstBySort] at h
  | cons q qs ih =>
      simp only [firstBySort] at h
      cases hq : firstBySort qs with
      | none => rw [hq] at h; cases h; exact List.mem_cons_self _ _
      | some m0 =>
          rw [hq] at h
          by_cases hle : q.sort_order ≤ m0.sort_order
          · simp [hle] at h; cases h; exact List.mem_cons_self _ _
          · simp [hle] at h; cases h; exact List.mem_cons_of_mem _ (ih hq)

theorem firstBySort_eq_none {l : List Question}
    (h : firstBySort l = none) : l = [] := by
  cases l with
  | nil => rfl
  | cons q qs =>
      exfalso
      simp only [firstBySort] at h
      cases hq : firstBySort qs with
      | none => rw [hq] at h; cases h
      | some m =>
          rw [hq] at h
          by_cases hle : q.sort_order ≤ m.sort_order <;> simp [hle] at h

theorem firstBySort_min {l : List Question} :
    ∀ {m : Question}, firstBySort l = some m →
      ∀ q ∈ l, m.sort_order ≤ q.sort_order := by
  induction l with
  | nil => intro m h; simp [firstBySort] at h
  | cons q qs ih =>
      intro m h x hx
      simp only [firstBySort] at h
      cases hq : firstBySort qs with
      | none =>
          rw [hq] at h
          cases h
          have hnil : qs = [] := firstBySort_eq_none hq
          subst hnil
          rcases List.mem_cons.mp hx with h1 | h1
          · subst h1; exact le_refl _
          · cases h1
      | some m0 =>
          rw [hq] at h
          by_cases hle : q.sort_order ≤ m0.sort_order
          · simp only [hle, if_true, Option.some.injEq] at h
            subst h
            rcases List.mem_cons.mp hx with h1 | h1
            · subst h1; exact le_refl _
            · exact le_trans hle (ih hq x h1)
          · simp only [hle, if_false, Option.some.injEq] at h
            subst h
            rcases List.mem_cons.mp hx with h1 | h1
            · subst h1; exact le_of_not_le hle
            · exact ih hq x h1

theorem mem_insertEG {x eg : EndingGuidance} {l : List EndingGuidance} :
    x ∈ insertEG eg l ↔ x = eg ∨ x ∈ l := by
  induction l with
  | nil => simp [insertEG]
  | cons a as ih =>
      simp only [insertEG]
      by_cases hle : a.sort_order ≤ eg.sort_order
      · rw [if_pos hle, List.mem_cons, ih, List.mem_cons]
        tauto
      · rw [if_neg hle, List.mem_cons]

theorem mem_sortEGs {x : EndingGuidance} {l : List EndingGuidance} :
    x ∈ sortEGs l ↔ x ∈ l := by
  induction l with
  | nil => simp [sortEGs]
  | cons a as ih =>
      simp only [sortEGs, mem_insertEG, ih, List.mem_cons]

theorem sortEGs_eq_nil {l : List EndingGuidance}
    (h : sortEGs l = []) : l = [] := by
  cases l with
  | nil => rfl
  | cons a as =>
      exfalso
      have : a ∈ sortEGs (a :: as) := mem_sortEGs.mpr (List.mem_cons_self _ _)
      rw [h] at this
      cases this

theorem updateFirst_length {α : Type} (p : α → Bool) (f : α → α)
    (l : List α) : (updateFirst p f l).length = l.length := by
  induction l with
  | nil => rfl
  | cons a as ih =>
      simp only [updateFirst]
      by_cases hp : p a <;> simp [hp, ih]

theorem updateFirst_getElem? {α : Type} (p : α → Bool) (f : α → α)
    (l : List α) (i : Nat) (a : α) (ha : l[i]? = some a) (hpa : p a = false) :
    (updateFirst p f l)[i]? = some a := by
  induction l generalizing i with
  | nil => simp at ha
  | cons x xs ih =>
      simp only [updateFirst]
      by_cases hp : p x
      · rw [if_pos hp]
        cases i with
        | zero =>
            simp only [List.getElem?_cons_zero, Option.some.injEq] at ha
            subst ha
            rw [hp] at hpa
            cases hpa
        | succ n => simpa using ha
      · rw [if_neg hp]
        cases i with
        | zero => simpa using ha
        | succ n =>
            simp only [List.getElem?_cons_succ] at ha ⊢
            exact ih n ha

theorem downloadLoop_attempts_le (att : Nat → DownloadOutcome) :
    ∀ fuel attempt delay,
      (downloadLoop att fuel attempt delay).2.1 ≤ fuel := by
  intro fuel
  induction fuel with
  | zero => intro attempt delay; simp [downloadLoop]
  | succ fuel ih =>
      intro attempt delay
      cases hat : att attempt with
      | raise e => simp [downloadLoop, hat]
      | status code =>
          simp only [downloadLoop, hat]
          by_cases h200 : (code == 200) = true
          · rw [if_pos h200]; simp
          · rw [if_neg h200]
            by_cases hf : (fuel == 0) = true
            · rw [if_pos hf]; simp
            · rw [if_neg hf]
              simpa using Nat.succ_le_succ (ih (attempt + 1) (delay * 2))

theorem downloadLoop_fail (att : Nat → DownloadOutcome) :
    ∀ fuel attempt delay,
      (∀ i, i < fuel → ∃ c, att (attempt + i) = DownloadOutcome.status c ∧
        c ≠ 200) →
      (downloadLoop att fuel attempt delay).1 = DownloadResult.exhausted := by
  intro fuel
  induction fuel with
  | zero => intro attempt delay _; rfl
  | succ fuel ih =>
      intro attempt delay h
      obtain ⟨c, hc, hne⟩ := h 0 (Nat.succ_pos _)
      rw [Nat.add_zero] at hc
      have hbeq : (c == 200) = false := by simp [hne]
      simp only [downloadLoop, hc, hbeq]
      rw [if_neg (by simp)]
      by_cases hf : (fuel == 0) = true
      · rw [if_pos hf]
      · rw [if_neg hf]
        exact ih (attempt + 1) (delay * 2) (fun i hi => by
          obtain ⟨c2, hc2, hne2⟩ := h (i + 1) (Nat.succ_lt_succ hi)
          exact ⟨c2, by
            simpa [Nat.add_assoc, Nat.add_comm 1 i] using hc2, hne2⟩)

theorem downloadLoop_sleeps_geom (att : Nat → DownloadOutcome) :
    ∀ fuel attempt delay, ∃ n,
      (downloadLoop att fuel attempt delay).2.2 = geomSleeps delay n := by
  intro fuel
  induction fuel with
  | zero => intro attempt delay; exact ⟨0, rfl⟩
  | succ fuel ih =>
      intro attempt delay
      cases hat : att attempt with
      | raise e => exact ⟨0, by simp [downloadLoop, hat, geomSleeps]⟩
      | status code =>
          simp only [downloadLoop, hat]
          by_cases h200 : (code == 200) = true
          · rw [if_pos h200]; exact ⟨0, rfl⟩
          · rw [if_neg h200]
            by_cases hf : (fuel == 0) = true
            · rw [if_pos hf]; exact ⟨0, rfl⟩
            · rw [if_neg hf]
              obtain ⟨n, hn⟩ := ih (attempt + 1) (delay * 2)
              exact ⟨n + 1, by simp [geomSleeps, hn]⟩

theorem geomSleeps_head (n delay a : Nat)
    (h : (geomSleeps delay n)[0]? = some a) : a = delay := by
  cases n with
  | zero => simp [geomSleeps] at h
  | succ n =>
      simp only [geomSleeps, List.getElem?_cons_zero, Option.some.injEq] at h
      exact h.symm

theorem geomSleeps_chain :
    ∀ (n delay i a b : Nat), (geomSleeps delay n)[i]? = some a →
      (geomSleeps delay n)[i + 1]? = some b → b = 2 * a := by
  intro n
  induction n with
  | zero => intro delay i a b ha _; simp [geomSleeps] at ha
  | succ n ih =>
      intro delay i a b ha hb
      cases i with
      | zero =>
          simp only [geomSleeps, List.getElem?_cons_zero,
            Option.some.injEq] at ha
          simp only [geomSleeps, List.getElem?_cons_succ] at hb
          have := geomSleeps_head n (delay * 2) b hb
          rw [this, ← ha, Nat.mul_comm]
      | succ i =>
          simp only [geomSleeps, List.getElem?_cons_succ] at ha hb
          exact ih (delay * 2) i a b ha hb

theorem string_data_append (a b : String) :
    (a ++ b).data = a.data ++ b.data := by
  cases a; cases b; rfl

theorem messageRecordUrl_ne_recordCallbackUrl (s s2 q2 : Nat) :
    messageRecordUrl s ≠ recordCallbackUrl s2 q2 := by
  intro h
  have h1 := congrArg (fun t : String => t.data[8]?) h
  simp only [messageRecordUrl, recordCallbackUrl, string_data_append] at h1
  have hA : 8 < "/twilio/record_callback?scenario_id=".data.length := by
    decide
  have h2 : 8 < ("/twilio/record_callback?scenario_id=".data ++
      (toString s2).data).length := by
    rw [List.length_append]
    exact Nat.lt_of_lt_of_le hA (Nat.le_add_right _ _)
  have h3 : 8 < (("/twilio/record_callback?scenario_id=".data ++
      (toString s2).data) ++ "&q_curr=".data).length := by
    rw [List.length_append]
    exact Nat.lt_of_lt_of_le h2 (Nat.le_add_right _ _)
  rw [List.getElem?_append_left (by decide), List.getElem?_append_left h3,
    List.getElem?_append_left h2, List.getElem?_append_left hA] at h1
  exact absurd h1 (by decide)

theorem transcribe_noop_of_no_download (env : TransEnv)
    (job : TranscriptionJob) (db : DB)
    (h : (downloadRecording env.attempt).1 = DownloadResult.exhausted) :
    transcribe_with_whisper env job db = db := by
  unfold transcribe_with_whisper
  cases hk : env.apiKeyConfigured
  · rfl
  · simp only [h]
    rfl

/-- A download attempt raising reaches the `except` handler: with a
matching row the attempt marks it `failed` and appends exactly one failure
log with `audio_bytes = 0`, even though no download succeeded. -/
theorem raised_download_runs_except_handler :
    (transcribe_with_whisper envRaiseAttempt jobRE1
        dbOneAnswer).transcriptionLogs =
      [failureLog jobRE1 "ConnectionError" 0] ∧
    (transcribe_with_whisper envRaiseAttempt jobRE1
        dbOneAnswer).answers.map (fun a => a.transcript_status) =
      ["failed"] := by decide

theorem sameFrame_refl (a : Answer) : sameFrame a a :=
  ⟨rfl, rfl, rfl, rfl, rfl, rfl, rfl, rfl, rfl⟩

/-- `transcribe_with_whisper` either leaves the answer table untouched or
rewrites it with `updateFirst` on the write-back guard, using an update
that can change only the transcript text and status of a row. -/
theorem transcribe_answers_shape (env : TransEnv) (job : TranscriptionJob)
    (db : DB) :
    (transcribe_with_whisper env job db).answers = db.answers ∨
    ∃ f, (∀ a, sameFrame a (f a)) ∧
      (transcribe_with_whisper env job db).answers =
        updateFirst (answerGuard job) f db.answers := by
  unfold transcribe_with_whisper failWriteBack
  cases hk : env.apiKeyConfigured
  · exact Or.inl rfl
  · cases hd : (downloadRecording env.attempt).1 with
    | exhausted => exact Or.inl rfl
    | raised e =>
        cases hf : db.answers.find? (answerGuard job)
        · exact Or.inl rfl
        · refine Or.inr ⟨_, ?_, rfl⟩
          intro a
          exact ⟨rfl, rfl, rfl, rfl, rfl, rfl, rfl, rfl, rfl⟩
    | ok =>
        cases ht : env.transcription with
        | ok v =>
            cases hf : db.answers.find? (answerGuard job)
            · exact Or.inl rfl
            · refine Or.inr ⟨_, ?_, rfl⟩
              intro a
              exact ⟨rfl, rfl, rfl, rfl, rfl, rfl, rfl, rfl, rfl⟩
        | error e =>
            cases hf : db.answers.find? (answerGuard job)
            · exact Or.inl rfl
            · refine Or.inr ⟨_, ?_, rfl⟩
              intro a
              exact ⟨rfl, rfl, rfl, rfl, rfl, rfl, rfl, rfl, rfl⟩

theorem updateFirst_sameFrame (p : Answer → Bool) (f : Answer → Answer)
    (hf : ∀ a, sameFrame a (f a)) :
    ∀ (l : List Answer) (i : Nat) (a b : Answer), l[i]? = some a →
      (updateFirst p f l)[i]? = some b → sameFrame a b := by
  intro l
  induction l with
  | nil => intro i a b ha _; simp at ha
  | cons x xs ih =>
      intro i a b ha hb
      simp only [updateFirst] at hb
      by_cases hp : p x
      · rw [if_pos hp] at hb
        cases i with
        | zero =>
            simp only [List.getElem?_cons_zero, Option.some.injEq] at ha hb
            rw [← ha, ← hb]
            exact hf x
        | succ n =>
            simp only [List.getElem?_cons_succ] at ha hb
            rw [ha] at hb
            cases hb
            exact sameFrame_refl a
      · rw [if_neg hp] at hb
        cases i with
        | zero =>
            simp only [List.getElem?_cons_zero, Option.some.injEq] at ha hb
            rw [← ha, ← hb]
            exact sameFrame_refl x
        | succ n =>
            simp only [List.getElem?_cons_succ] at ha hb
            exact ih n a b ha hb

theorem sayIfTruthy_shape {v : Verb} {s : Option String}
    (h : v ∈ sayIfTruthy s) : ∃ t, v = Verb.say t := by
  cases s with
  | none => cases h
  | some t =>
      simp only [sayIfTruthy] at h
      by_cases ht : t = ""
      · rw [if_neg (by simp [ht])] at h
        cases h
      · rw [if_pos (by simp [ht])] at h
        rcases List.mem_cons.mp h with h1 | h1
        · exact ⟨t, h1⟩
        · cases h1

theorem resolvePhone_self (db : DB) (pn : PhoneNumber)
    (hmem : pn ∈ db.phoneNumbers)
    (huniq : ∀ p ∈ db.phoneNumbers, p.to_number = pn.to_number → p = pn) :
    resolvePhone db pn.to_number = some pn := by
  unfold resolvePhone
  cases hex : db.phoneNumbers.find?
      (fun p => p.to_number == pn.to_number) with
  | some P =>
      have hPmem := List.mem_of_find?_eq_some hex
      have hPeq : P.to_number = pn.to_number := by
        have := List.find?_some hex
        simpa [beq_iff_eq] using this
      rw [huniq P hPmem hPeq]
  | none =>
      exfalso
      have := List.find?_eq_none.mp hex pn hmem
      simp at this

/-! ## Claim theorems -/

/-- C7: the recording download is attempted at most 5 times, the sleeps
between consecutive attempts start at the initial delay of 2 seconds and
double each time, and if every attempt returns a non-200 status the job
terminates without touching the database (in particular the Answer's
transcript status and text are unmodified). -/
theorem c7_download_retry_bounded (env : TransEnv) (job : TranscriptionJob)
    (db : DB) :
    (downloadRecording env.attempt).2.1 ≤ 5 ∧
    (∀ a, ((downloadRecording env.attempt).2.2)[0]? = some a → a = 2) ∧
    (∀ i a b, ((downloadRecording env.attempt).2.2)[i]? = some a →
      ((downloadRecording env.attempt).2.2)[i + 1]? = some b → b = 2 * a) ∧
    ((∀ i, i < 5 → ∃ c, env.attempt i = DownloadOutcome.status c ∧
        c ≠ 200) →
      transcribe_with_whisper env job db = db) := by
  obtain ⟨n, hn⟩ := downloadLoop_sleeps_geom env.attempt 5 0 2
  refine ⟨downloadLoop_attempts_le env.attempt 5 0 2, ?_, ?_, ?_⟩
  · intro a ha
    unfold downloadRecording at ha
    rw [hn] at ha
    exact geomSleeps_head n 2 a ha
  · intro i a b ha hb
    unfold downloadRecording at ha hb
    rw [hn] at ha hb
    exact geomSleeps_chain n 2 i a b ha hb
  · intro hfail
    apply transcribe_noop_of_no_download
    have hres := downloadLoop_fail env.attempt 5 0 2
      (fun i hi => by simpa using hfail i hi)
    exact hres

/-- Witness for C7 at a concrete environment whose five download attempts
all return 404: the database (holding a matching answer row) is returned
unchanged. -/
theorem c7_download_retry_bounded_witness :
    transcribe_with_whisper envAll404 jobRE1 dbOneAnswer = dbOneAnswer :=
  (c7_download_retry_bounded envAll404 jobRE1 dbOneAnswer).2.2.2
    (fun _ _ => ⟨404, rfl, by decide⟩)

/-- C1: the transcript write-back mutates an Answer row only when the row's
stored recording identifier still equals the identifier the job was launched
with: any row whose id matches the job but whose recording identifier
differs is left entirely unchanged (and no row is added or removed). -/
theorem c1_writeback_guard_rejects_stale (env : TransEnv)
    (job : TranscriptionJob) (db : DB) (i : Nat) (a : Answer)
    (ha : db.answers[i]? = some a) ( _hid : a.id = job.answer_id)
    (hsid : a.recording_sid ≠ some job.recording_sid) :
    (transcribe_with_whisper env job db).answers[i]? = some a ∧
    (transcribe_with_whisper env job db).answers.length =
      db.answers.length := by
  have hguard : answerGuard job a = false := by
    unfold answerGuard
    simp [hsid]
  rcases transcribe_answers_shape env job db with hsh | ⟨f, _, hsh⟩
  · rw [hsh]
    exact ⟨ha, rfl⟩
  · rw [hsh]
    exact ⟨updateFirst_getElem? _ f db.answers i a ha hguard,
      updateFirst_length _ f db.answers⟩

/-- Witness for C1: a job launched with recording `RE0` against a row that
now stores `RE1` leaves the row unchanged even though the transcription
succeeded. -/
theorem c1_writeback_guard_rejects_stale_witness :
    (transcribe_with_whisper envOk jobStale dbOneAnswer).answers[0]? =
      some answerRE1 ∧
    (transcribe_with_whisper envOk jobStale dbOneAnswer).answers.length =
      dbOneAnswer.answers.length :=
  c1_writeback_guard_rejects_stale envOk jobStale dbOneAnswer 0 answerRE1
    (by decide) (by decide) (by decide)

/-- C2 counterexample: three transcription attempts that append no
`TranscriptionLog` row at all — (1) an answer attempt whose five download
attempts all fail, (2) an answer attempt rejected by the write-back guard
(stale recording id) after a successful transcription, and (3) a message
attempt that even stores its transcript — refuting "every transcription
attempt appends exactly one TranscriptionLog row". -/
theorem c2_counterexample :
    (transcribe_with_whisper envAll404 jobRE1
        dbOneAnswer).transcriptionLogs = [] ∧
    (transcribe_with_whisper envOk jobStale
        dbOneAnswer).transcriptionLogs = [] ∧
    (transcribe_message_with_whisper envOk 1
        dbOneMessage).transcriptionLogs = [] ∧
    (transcribe_message_with_whisper envOk 1 dbOneMessage).messages ≠
      dbOneMessage.messages := by decide

/-- C2 (amended): an answer transcription attempt appends exactly one
`TranscriptionLog` row (success or failure kind) when the API key is
configured, the job gets past the download retry loop — either the download
succeeds within the retry ceiling or a download attempt raises into the
`except` handler — and the write-back guard passes; attempts that exhaust
the retry ceiling on non-success statuses, run with a missing API key, or
are rejected by the guard append no row; existing rows are only ever
appended to (never updated or deleted); message transcription attempts
never append a log row. -/
theorem c2_amended_log_append_only (env : TransEnv) (job : TranscriptionJob)
    (mid : Nat) (db : DB) :
    (∃ newLogs,
      (transcribe_with_whisper env job db).transcriptionLogs =
        db.transcriptionLogs ++ newLogs ∧
      newLogs.length =
        (if env.apiKeyConfigured &&
            !(isExhausted (downloadRecording env.attempt).1) &&
            (db.answers.find? (answerGuard job)).isSome then 1 else 0)) ∧
    (transcribe_message_with_whisper env mid db).transcriptionLogs =
      db.transcriptionLogs := by
  constructor
  · unfold transcribe_with_whisper failWriteBack
    cases hk : env.apiKeyConfigured
    · exact ⟨[], by simp⟩
    · cases hd : (downloadRecording env.attempt).1 with
      | exhausted => exact ⟨[], by simp [isExhausted]⟩
      | raised e =>
          cases hf : db.answers.find? (answerGuard job)
          · exact ⟨[], by simp [isExhausted]⟩
          · exact ⟨[failureLog job e 0], by simp [isExhausted]⟩
      | ok =>
          cases ht : env.transcription with
          | ok v =>
              cases hf : db.answers.find? (answerGuard job)
              · exact ⟨[], by simp [isExhausted]⟩
              · exact ⟨[successLog env job v.1 v.2],
                  by simp [isExhausted]⟩
          | error e =>
              cases hf : db.answers.find? (answerGuard job)
              · exact ⟨[], by simp [isExhausted]⟩
              · exact ⟨[failureLog job e env.audioBytes],
                  by simp [isExhausted]⟩
  · unfold transcribe_message_with_whisper
    cases hk : env.apiKeyConfigured
    · rfl
    · cases hd : (msgDownloadLoop env.attempt 5 0 2).1 with
      | exhausted => simp
      | raised e => simp
      | ok =>
          cases ht : env.transcription with
          | ok v =>
              cases hf : db.messages.find? (fun m => m.id == mid)
              · simp
              · simp
          | error e => simp

/-- C3: evaluating `handle_incoming_call` at a reachable database state — a
`PhoneNumber` row whose `scenario_id` references no existing Scenario — the
handler produces no markup: the source evaluates
`phone_entry.scenario.is_active` on a `None` relationship, raising
`AttributeError`, which FastAPI turns into a non-markup HTTP 500 during the
live call. -/
theorem c3_dangling_scenario_yields_no_markup :
    (handle_incoming_call dbDangling "+815000000000" "+819011112222" "CA3"
      none).2 = none := by decide

/-- C4: when the Record-Received callback's current question resolves, the
next question asked is exactly an active question of the given scenario with
the smallest sort position strictly greater than the current question's;
when no such question exists the handler emits the message prompt, whose
only recording instruction posts to the message endpoint — never back to an
Ask-Question `record_callback` URL. -/
theorem c4_next_question_minimal (db : DB) (scenario_id q_curr : Nat)
    (CallSid RecordingUrl RecordingSid : String) (cq : Question)
    (hcq : db.questions.find? (fun q => q.id == q_curr) = some cq) :
    (∃ nq, nq ∈ db.questions ∧ nq.scenario_id = some scenario_id ∧
       nq.is_active = true ∧ cq.sort_order < nq.sort_order ∧
       (∀ q ∈ db.questions, q.scenario_id = some scenario_id →
          q.is_active = true → cq.sort_order < q.sort_order →
          nq.sort_order ≤ q.sort_order) ∧
       (handle_recording db scenario_id q_curr CallSid RecordingUrl
         RecordingSid).2.1 =
         [Verb.say nq.text,
          Verb.record (recordCallbackUrl scenario_id nq.id) "#" 0 180]) ∨
    ((∀ q ∈ db.questions, q.scenario_id = some scenario_id →
        q.is_active = true → ¬ cq.sort_order < q.sort_order) ∧
     (handle_recording db scenario_id q_curr CallSid RecordingUrl
       RecordingSid).2.1 =
       [Verb.say "担当者に伝えたいことがあればお話しください。終わったらシャープを押してください。",
        Verb.record (messageRecordUrl scenario_id) "#" 10 180] ∧
     (∀ action fk t ml,
        Verb.record action fk t ml ∈
          (handle_recording db scenario_id q_curr CallSid RecordingUrl
            RecordingSid).2.1 →
        ∀ sid2 qid2, action ≠ recordCallbackUrl sid2 qid2)) := by
  unfold handle_recording
  simp only [hcq]
  split
  case h_1 nq heq =>
      left
      have hmem := firstBySort_mem heq
      have hp := (List.mem_filter.mp hmem).2
      simp only [Bool.and_eq_true, beq_iff_eq, decide_eq_true_eq] at hp
      refine ⟨nq, (List.mem_filter.mp hmem).1, hp.1.1, hp.1.2, hp.2,
        ?_, rfl⟩
      intro q hq hsid hact hlt
      exact firstBySort_min heq q
        (List.mem_filter.mpr ⟨hq, by
          simp [Bool.and_eq_true, beq_iff_eq, decide_eq_true_eq, hsid,
            hact, hlt]⟩)
  case h_2 heq =>
      right
      have hnil := firstBySort_eq_none heq
      have hall := List.filter_eq_nil_iff.mp hnil
      refine ⟨?_, rfl, ?_⟩
      · intro q hq hsid hact hlt
        exact hall q hq (by
          simp [Bool.and_eq_true, beq_iff_eq, decide_eq_true_eq, hsid,
            hact, hlt])
      · intro action fk t ml hmem sid2 qid2
        rcases List.mem_cons.mp hmem with h1 | h1
        · cases h1
        · rcases List.mem_cons.mp h1 with h2 | h2
          · cases h2
            exact messageRecordUrl_ne_recordCallbackUrl scenario_id sid2 qid2
          · cases h2

/-- Witness for C4 at a concrete database: after question 1 of two active
questions, the handler's markup asks question 2 — the active question with
the least sort position above 1. -/
theorem c4_next_question_minimal_witness :
    (∃ nq, nq ∈ dbTwoQuestions.questions ∧ nq.scenario_id = some 1 ∧
       nq.is_active = true ∧ q1.sort_order < nq.sort_order ∧
       (∀ q ∈ dbTwoQuestions.questions, q.scenario_id = some 1 →
          q.is_active = true → q1.sort_order < q.sort_order →
          nq.sort_order ≤ q.sort_order) ∧
       (handle_recording dbTwoQuestions 1 1 "CA4" "u4" "RE4").2.1 =
         [Verb.say nq.text,
          Verb.record (recordCallbackUrl 1 nq.id) "#" 0 180]) ∨
    ((∀ q ∈ dbTwoQuestions.questions, q.scenario_id = some 1 →
        q.is_active = true → ¬ q1.sort_order < q.sort_order) ∧
     (handle_recording dbTwoQuestions 1 1 "CA4" "u4" "RE4").2.1 =
       [Verb.say "担当者に伝えたいことがあればお話しください。終わったらシャープを押してください。",
        Verb.record (messageRecordUrl 1) "#" 10 180] ∧
     (∀ action fk t ml,
        Verb.record action fk t ml ∈
          (handle_recording dbTwoQuestions 1 1 "CA4" "u4" "RE4").2.1 →
        ∀ sid2 qid2, action ≠ recordCallbackUrl sid2 qid2)) :=
  c4_next_question_minimal dbTwoQuestions 1 1 "CA4" "u4" "RE4" q1 (by decide)

/-- C10: a Record-Received callback whose question identifier resolves to no
Question still persists an Answer row — with the dangling question
reference, `question_sort_at_call = 0`, and transcript status `processing` —
and schedules a transcription job for its recording, before returning the
generic error markup. -/
theorem c10_dangling_question_persists_answer (db : DB)
    (scenario_id q_curr : Nat) (CallSid RecordingUrl RecordingSid : String)
    (hmiss : db.questions.find? (fun q => q.id == q_curr) = none) :
    ∃ a, (handle_recording db scenario_id q_curr CallSid RecordingUrl
        RecordingSid).1.answers = db.answers ++ [a] ∧
      a.question_id = some q_curr ∧
      a.question_sort_at_call = 0 ∧
      a.transcript_status = "processing" ∧
      a.recording_sid = some RecordingSid ∧
      (handle_recording db scenario_id q_curr CallSid RecordingUrl
        RecordingSid).2.2.answer_id = a.id ∧
      (handle_recording db scenario_id q_curr CallSid RecordingUrl
        RecordingSid).2.2.recording_sid = RecordingSid ∧
      (handle_recording db scenario_id q_curr CallSid RecordingUrl
        RecordingSid).2.1 = [Verb.say "エラーが発生しました。"] := by
  unfold handle_recording
  simp only [hmiss]
  refine ⟨_, rfl, ?_, ?_, ?_, ?_, ?_, ?_, ?_⟩ <;> (first | rfl | trivial)

/-- Witness for C10: question id 99 does not exist, yet the Answer row is
persisted with sort snapshot 0 and a job is scheduled for `RE10`. -/
theorem c10_dangling_question_persists_answer_witness :
    ∃ a, (handle_recording dbTwoQuestions 1 99 "CA10" "u10"
        "RE10").1.answers = dbTwoQuestions.answers ++ [a] ∧
      a.question_id = some 99 ∧
      a.question_sort_at_call = 0 ∧
      a.transcript_status = "processing" ∧
      a.recording_sid = some "RE10" ∧
      (handle_recording dbTwoQuestions 1 99 "CA10" "u10"
        "RE10").2.2.answer_id = a.id ∧
      (handle_recording dbTwoQuestions 1 99 "CA10" "u10"
        "RE10").2.2.recording_sid = "RE10" ∧
      (handle_recording dbTwoQuestions 1 99 "CA10" "u10"
        "RE10").2.1 = [Verb.say "エラーが発生しました。"] :=
  c10_dangling_question_persists_answer dbTwoQuestions 1 99 "CA10" "u10"
    "RE10" (by decide)

/-- C6 counterexample: dialing `+81 3`, which equals the stored number
`+813` up to a space, resolves to scenario 2 (the exact match on the other
stored row) while dialing the canonical stored form `+813` resolves to
scenario 1 — so a spacing-equivalent dialed number need not resolve to the
same Scenario as the canonical stored form. -/
theorem c6_counterexample :
    normalize_phone "+81 3" = normalize_phone "+813" ∧
    (resolvePhone dbTwoSimilarPhones "+813").map
      (fun pn => pn.scenario_id) = some (some 1) ∧
    (resolvePhone dbTwoSimilarPhones "+81 3").map
      (fun pn => pn.scenario_id) = some (some 2) := by decide

/-- C6 (amended): provided no two stored PhoneNumber rows share the same
normalized form, a dialed number whose normalized form equals a stored
row's resolves to exactly that row — the same result (and hence the same
Scenario) as dialing the canonical stored form. -/
theorem c6_amended_normalized_resolution (db : DB) (S : PhoneNumber)
    (D : String)
    (hdist : ∀ p ∈ db.phoneNumbers, ∀ q ∈ db.phoneNumbers,
      normalize_phone p.to_number = normalize_phone q.to_number → p = q)
    (hS : S ∈ db.phoneNumbers)
    (hD : normalize_phone D = normalize_phone S.to_number) :
    resolvePhone db D = some S ∧
    resolvePhone db S.to_number = some S := by
  constructor
  · unfold resolvePhone
    cases hex : db.phoneNumbers.find? (fun pn => pn.to_number == D) with
    | some P =>
        have hPmem := List.mem_of_find?_eq_some hex
        have hPD : P.to_number = D := by
          have := List.find?_some hex
          simpa [beq_iff_eq] using this
        have hPS := hdist P hPmem S hS (by rw [hPD, hD])
        rw [hPS]
    | none =>
        cases hfb : db.phoneNumbers.find?
            (fun pn => normalize_phone pn.to_number == normalize_phone D)
            with
        | some P =>
            have hPmem := List.mem_of_find?_eq_some hfb
            have hPn : normalize_phone P.to_number = normalize_phone D := by
              have := List.find?_some hfb
              simpa [beq_iff_eq] using this
            have hPS := hdist P hPmem S hS (by rw [hPn, hD])
            rw [hPS]
        | none =>
            exfalso
            have hnone := List.find?_eq_none.mp hfb S hS
            apply hnone
            simp [beq_iff_eq, hD.symm]
  · unfold resolvePhone
    cases hex : db.phoneNumbers.find?
        (fun pn => pn.to_number == S.to_number) with
    | some P =>
        have hPmem := List.mem_of_find?_eq_some hex
        have hPD : P.to_number = S.to_number := by
          have := List.find?_some hex
          simpa [beq_iff_eq] using this
        have hPS := hdist P hPmem S hS (by rw [hPD])
        rw [hPS]
    | none =>
        exfalso
        have hnone := List.find?_eq_none.mp hex S hS
        simp [beq_iff_eq] at hnone

/-- Witness for C6 (amended): dialing `+8131234` resolves to the stored row
`+81 3 1234`, the same row as dialing the canonical stored form. -/
theorem c6_amended_normalized_resolution_witness :
    resolvePhone dbOnePhone "+8131234" = some phoneSpaced ∧
    resolvePhone dbOnePhone "+81 3 1234" = some phoneSpaced :=
  c6_amended_normalized_resolution dbOnePhone phoneSpaced "+8131234"
    (by decide) (by decide) (by decide)

/-- C8: `question_sort_at_call` is written exactly once, at Answer
creation, as the owning Question's current sort position (0 when the
question does not resolve); existing rows are untouched by the recording
handler (it only appends); and the transcription write-back changes at most
`transcript_text` and `transcript_status` of a row, keeping
`question_sort_at_call`, `recording_sid` and every other field (and the row
count) unchanged. -/
theorem c8_sort_snapshot_immutable (env : TransEnv) (job : TranscriptionJob)
    (db : DB) (scenario_id q_curr : Nat)
    (CallSid RecordingUrl RecordingSid : String) :
    (∃ newA,
      (handle_recording db scenario_id q_curr CallSid RecordingUrl
        RecordingSid).1.answers = db.answers ++ [newA] ∧
      (∀ cq, db.questions.find? (fun q => q.id == q_curr) = some cq →
        newA.question_sort_at_call = cq.sort_order)) ∧
    (transcribe_with_whisper env job db).answers.length =
      db.answers.length ∧
    (∀ (i : Nat) (a b : Answer), db.answers[i]? = some a →
      (transcribe_with_whisper env job db).answers[i]? = some b →
      sameFrame a b) := by
  refine ⟨?_, ?_, ?_⟩
  · unfold handle_recording
    cases hc : db.questions.find? (fun q => q.id == q_curr) with
    | none =>
        refine ⟨_, rfl, ?_⟩
        intro cq hcq
        cases hcq
    | some cq0 =>
        simp only [hc]
        split
        · refine ⟨_, rfl, ?_⟩
          intro cq hcq
          cases hcq
          rfl
        · refine ⟨_, rfl, ?_⟩
          intro cq hcq
          cases hcq
          rfl
  · rcases transcribe_answers_shape env job db with hsh | ⟨f, _, hsh⟩
    · rw [hsh]
    · rw [hsh]
      exact updateFirst_length _ f db.answers
  · intro i a b ha hb
    rcases transcribe_answers_shape env job db with hsh | ⟨f, hfr, hsh⟩
    · rw [hsh] at hb
      rw [ha] at hb
      cases hb
      exact sameFrame_refl a
    · rw [hsh] at hb
      exact updateFirst_sameFrame (answerGuard job) f hfr db.answers i a b
        ha hb

/-- Witness for C8: a successful transcription of answer 1 changes only its
transcript fields; the recording handler appends the snapshot of question
1's sort position. -/
theorem c8_sort_snapshot_immutable_witness :
    (∃ newA,
      (handle_recording dbOneAnswer 1 1 "CA8" "u8"
        "RE8").1.answers = dbOneAnswer.answers ++ [newA] ∧
      (∀ cq, dbOneAnswer.questions.find? (fun q => q.id == 1) = some cq →
        newA.question_sort_at_call = cq.sort_order)) ∧
    (transcribe_with_whisper envOk jobRE1 dbOneAnswer).answers.length =
      dbOneAnswer.answers.length ∧
    (∀ (i : Nat) (a b : Answer), dbOneAnswer.answers[i]? = some a →
      (transcribe_with_whisper envOk jobRE1 dbOneAnswer).answers[i]? =
        some b →
      sameFrame a b) :=
  c8_sort_snapshot_immutable envOk jobRE1 dbOneAnswer 1 1 "CA8" "u8" "RE8"

/-- C5: when the resolved scenario is active but has zero active questions,
the Call-Start markup contains no recording instruction at all (hence no
Ask-Question step) and proceeds directly to the ending path: it speaks the
scenario's ending guidance, or the fixed closing line when none exists. -/
theorem c5_zero_active_questions_no_ask (db : DB)
    (To From CallSid : String) (recSid : Option String)
    (pn : PhoneNumber) (sc : Scenario)
    (hres : resolvePhone db To = some pn)
    (hsid : pn.scenario_id = some sc.id)
    (hfind : findScenario db sc.id = some sc)
    (hact : sc.is_active = true)
    (hnoq : ∀ q ∈ db.questions, q.scenario_id = some sc.id →
      q.is_active = false) :
    ∃ vs, (handle_incoming_call db To From CallSid recSid).2 = some vs ∧
      (∀ action fk t ml, Verb.record action fk t ml ∉ vs) ∧
      (Verb.say "終了します。" ∈ vs ∨
        ∃ eg ∈ db.endingGuidances, eg.scenario_id = some sc.id ∧
          Verb.say eg.text ∈ vs) := by
  have hfilter : List.filter
      (fun q => q.scenario_id == some sc.id && q.is_active)
      db.questions = [] := by
    apply List.filter_eq_nil_iff.mpr
    intro q hq
    by_cases hs : q.scenario_id = some sc.id
    · simp [hs, hnoq q hq hs]
    · simp [hs]
  have hfind2 : List.find? (fun s => s.id == sc.id) db.scenarios =
      some sc := by
    simpa [findScenario] using hfind
  unfold handle_incoming_call
  simp only [hres, hsid, Option.some_bind, findScenario, hfind2, hact,
    Bool.not_true, if_false, hfilter, firstBySort]
  by_cases hegs : (sortEGs (List.filter
      (fun eg => eg.scenario_id == some sc.id)
      db.endingGuidances)).isEmpty
  · rw [if_pos hegs]
    refine ⟨_, rfl, ?_, Or.inl ?_⟩
    · intro action fk t ml hmem
      rcases List.mem_append.mp hmem with h1 | h1
      · rcases List.mem_append.mp h1 with h2 | h2
        · rcases List.mem_append.mp h2 with h3 | h3
          · obtain ⟨t2, ht2⟩ := sayIfTruthy_shape h3
            cases ht2
          · obtain ⟨t2, ht2⟩ := sayIfTruthy_shape h3
            cases ht2
        · rcases List.mem_cons.mp h2 with h3 | h3
          · cases h3
          · rcases List.mem_cons.mp h3 with h4 | h4
            · cases h4
            · cases h4
      · rcases List.mem_cons.mp h1 with h2 | h2
        · cases h2
        · cases h2
    · exact List.mem_append.mpr (Or.inr (List.mem_cons_self _ _))
  · rw [if_neg hegs]
    refine ⟨_, rfl, ?_, Or.inr ?_⟩
    · intro action fk t ml hmem
      rcases List.mem_append.mp hmem with h1 | h1
      · rcases List.mem_append.mp h1 with h2 | h2
        · rcases List.mem_append.mp h2 with h3 | h3
          · obtain ⟨t2, ht2⟩ := sayIfTruthy_shape h3
            cases ht2
          · obtain ⟨t2, ht2⟩ := sayIfTruthy_shape h3
            cases ht2
        · rcases List.mem_cons.mp h2 with h3 | h3
          · cases h3
          · rcases List.mem_cons.mp h3 with h4 | h4
            · cases h4
            · cases h4
      · obtain ⟨l, hl, hv⟩ := List.mem_flatten.mp h1
        obtain ⟨eg, _, hegdef⟩ := List.mem_map.mp hl
        rw [← hegdef] at hv
        rcases List.mem_cons.mp hv with h2 | h2
        · cases h2
        · rcases List.mem_cons.mp h2 with h3 | h3
          · cases h3
          · cases h3
    · rcases hc : sortEGs (List.filter
          (fun eg => eg.scenario_id == some sc.id) db.endingGuidances)
          with _ | ⟨e, es⟩
      · rw [hc] at hegs
        simp at hegs
      · have hemem : e ∈ sortEGs (List.filter
            (fun eg => eg.scenario_id == some sc.id) db.endingGuidances) :=
          by rw [hc]; exact List.mem_cons_self _ _
        have hef := mem_sortEGs.mp hemem
        have heg := List.mem_filter.mp hef
        refine ⟨e, heg.1, by simpa [beq_iff_eq] using heg.2, ?_⟩
        apply List.mem_append.mpr
        right
        apply List.mem_flatten.mpr
        refine ⟨[Verb.say e.text, Verb.pause 10], ?_,
          List.mem_cons_self _ _⟩
        exact List.mem_map.mpr ⟨e, List.mem_cons_self _ _, rfl⟩

/-- Witness for C5: scenario 1 is active with only an inactive question; the
Call-Start markup has no recording instruction and speaks the stored ending
guidance. -/
theorem c5_zero_active_questions_no_ask_witness :
    ∃ vs, (handle_incoming_call dbNoActiveQuestions "+815011112222"
        "+819000000000" "CA5" none).2 = some vs ∧
      (∀ action fk t ml, Verb.record action fk t ml ∉ vs) ∧
      (Verb.say "終了します。" ∈ vs ∨
        ∃ eg ∈ dbNoActiveQuestions.endingGuidances,
          eg.scenario_id = some scenario1.id ∧ Verb.say eg.text ∈ vs) :=
  c5_zero_active_questions_no_ask dbNoActiveQuestions "+815011112222"
    "+819000000000" "CA5" none phoneInactive scenario1 (by decide)
    (by decide) (by decide) (by decide) (by decide)

/-- C9: phone resolution never consults the PhoneNumber's own `is_active`
flag — a row with `is_active = false` whose referenced Scenario is active
still resolves: the Call row is created with that Scenario, and the markup
is the survey script (it contains the post-guidance pause and is not the
single-line "not in service" document). -/
theorem c9_inactive_phone_still_resolves (db : DB)
    (From CallSid : String) (recSid : Option String)
    (pn : PhoneNumber) (sc : Scenario)
    (hmem : pn ∈ db.phoneNumbers)
    (huniq : ∀ p ∈ db.phoneNumbers, p.to_number = pn.to_number → p = pn)
    ( _hinact : pn.is_active = false)
    (hsid : pn.scenario_id = some sc.id)
    (hfind : findScenario db sc.id = some sc)
    (hact : sc.is_active = true) :
    (∃ c, (handle_incoming_call db pn.to_number From CallSid recSid).1.calls
        = db.calls ++ [c] ∧ c.scenario_id = some sc.id) ∧
    (∃ vs, (handle_incoming_call db pn.to_number From CallSid recSid).2 =
        some vs ∧ Verb.pause 15 ∈ vs ∧
      vs ≠ [Verb.say "現在この番号は使われておりません。"]) := by
  have hres := resolvePhone_self db pn hmem huniq
  have hfind2 : List.find? (fun s => s.id == sc.id) db.scenarios =
      some sc := by
    simpa [findScenario] using hfind
  unfold handle_incoming_call
  simp only [hres, hsid, Option.some_bind, findScenario, hfind2, hact,
    Bool.not_true, if_false]
  cases hfq : firstBySort (List.filter
      (fun q => q.scenario_id == some sc.id && q.is_active)
      db.questions) with
  | some q =>
      refine ⟨⟨_, rfl, rfl⟩, ⟨_, rfl, ?_, ?_⟩⟩
      · simp
      · intro heq
        have hp : Verb.pause 15 ∈
            [Verb.say "現在この番号は使われておりません。"] := by
          rw [← heq]; simp
        simp at hp
  | none =>
      cases hegs : sortEGs (List.filter
          (fun eg => eg.scenario_id == some sc.id)
          db.endingGuidances) with
      | nil =>
          refine ⟨⟨_, rfl, rfl⟩, ⟨_, rfl, ?_, ?_⟩⟩
          · simp
          · intro heq
            have hp : Verb.pause 15 ∈
                [Verb.say "現在この番号は使われておりません。"] := by
              rw [← heq]; simp
            simp at hp
      | cons e es =>
          refine ⟨⟨_, rfl, rfl⟩, ⟨_, rfl, ?_, ?_⟩⟩
          · simp
          · intro heq
            have hp : Verb.pause 15 ∈
                [Verb.say "現在この番号は使われておりません。"] := by
              rw [← heq]; simp
            simp at hp

/-- Witness for C9: the inactive phone row `+815011112222` still resolves
to active scenario 1 and gets the full script. -/
theorem c9_inactive_phone_still_resolves_witness :
    (∃ c, (handle_incoming_call dbNoActiveQuestions
        phoneInactive.to_number "+819000000000" "CA9" none).1.calls
        = dbNoActiveQuestions.calls ++ [c] ∧
        c.scenario_id = some scenario1.id) ∧
    (∃ vs, (handle_incoming_call dbNoActiveQuestions
        phoneInactive.to_number "+819000000000" "CA9" none).2 =
        some vs ∧ Verb.pause 15 ∈ vs ∧
      vs ≠ [Verb.say "現在この番号は使われておりません。"]) :=
  c9_inactive_phone_still_resolves dbNoActiveQuestions "+819000000000"
    "CA9" none phoneInactive scenario1 (by decide) (by decide) (by decide)
    (by decide) (by decide) (by decide)
